import Mathlib

/-!
Verification of the EMNIST lab notebook (`src/lab07_emnist_partial.ipynb`).

The notebook is a linear script gluing together numpy/sklearn calls.  We give
a shallow embedding of the code that the claims are about: the MATLAB dataset
layout and `load_emnist`, the `plt_digit` helper, the (buggy) plotting cell,
and — for the cells left as TODO exercises — models written from the
notebook's own instructions.  Python exceptions are modelled with
`Except PyError`; an `Except.error` value is an exception propagating to the
caller with no partial result.
-/

namespace EmnistLab

/-- A Python exception, as raised by numpy / scipy / matplotlib. -/
inductive PyError where
  | ioError (msg : String)
  | valueError (msg : String)
  | typeError (msg : String)
  deriving Repr, DecidableEq

/-- One partition of the EMNIST MATLAB file (`mat['dataset'][0][0][k][0][0]`):
field `[0]` is the 2-D feature array (one row of pixel intensities per
sample), field `[1]` is the stored label column, flattened here to its list
of entries (`astype(int)` is the identity on these integer labels). -/
structure Partition where
  images : List (List Nat)
  labels : List Int
  deriving Repr, DecidableEq

/-- The parsed contents of an EMNIST MATLAB file: `part0` is
`mat['dataset'][0][0][0]` (the first partition, used as training data) and
`part1` is `mat['dataset'][0][0][1]` (the second partition, used as test
data). -/
structure MatFile where
  part0 : Partition
  part1 : Partition
  deriving Repr, DecidableEq

/-- The list `[Xtr, Xts, ytr, yts]` returned by `load_emnist`. -/
structure LoadResult where
  Xtr : List (List Nat)
  Xts : List (List Nat)
  ytr : List Int
  yts : List Int
  deriving Repr, DecidableEq

/-- numpy `a.reshape(n)` on a stored label column: succeeds, yielding the
one-dimensional vector of the `n` entries, exactly when the array holds `n`
elements; otherwise it raises a `ValueError`. -/
def reshape1 (a : List Int) (n : Nat) : Except PyError (List Int) :=
  if a.length = n then Except.ok a
  else Except.error (PyError.valueError "cannot reshape array")

/-- The status line printed by `load_emnist`. -/
def statusLine (ntr nts : Nat) : String :=
  s!"{ntr} training samples, {nts} test samples loaded"

/-- `load_emnist` (cell-6).  `fs file_path` models `scipy.io.loadmat`: the
result of parsing the file at `file_path`, an exception when the file is
missing or malformed.  Training data is read from the file's first partition
and test data from its second; each label column is reshaped to the length of
the corresponding feature array. -/
def load_emnist (fs : String → Except PyError MatFile)
    (file_path : String) : Except PyError LoadResult := do
  let mat ← fs file_path
  let Xtr := mat.part0.images
  let ntr := Xtr.length
  let ytr ← reshape1 mat.part0.labels ntr
  let Xts := mat.part1.images
  let nts := Xts.length
  let yts ← reshape1 mat.part1.labels nts
  pure ⟨Xtr, Xts, ytr, yts⟩

/-- The interpreter state visible to `load_emnist`: the file system and the
stream of printed lines. -/
structure World where
  fs : String → Except PyError MatFile
  stdout : List String

/-- Running the `load_emnist` call: on success the status line is printed
(the `print` is the last statement before `return`); an exception propagates
before the `print` is reached, leaving the world untouched.  No branch
writes to the file system. -/
def load_emnist_run (w : World) (path : String) :
    Except PyError LoadResult × World :=
  match load_emnist w.fs path with
  | Except.ok r =>
      (Except.ok r,
       { w with stdout := w.stdout ++ [statusLine r.Xtr.length r.Xts.length] })
  | Except.error e => (Except.error e, w)

/-- A matplotlib side effect produced by `plt_digit`. -/
inductive PlotEffect where
  | imshow (img : List (List Nat))
  | xticks
  | yticks
  | title (y : Int)
  deriving Repr, DecidableEq

/-- numpy `x.reshape((r, c))`: succeeds, yielding the `r × c` row-major
matrix of the entries of `x`, exactly when `x` holds `r * c` elements;
otherwise it raises a `ValueError`. -/
def reshape2 (r c : Nat) (x : List Nat) : Except PyError (List (List Nat)) :=
  if x.length = r * c then
    Except.ok ((List.range r).map (fun i => (List.range c).map (fun j => x.getD (i * c + j) 0)))
  else Except.error (PyError.valueError "cannot reshape array")

/-- Transposition of a row-major matrix given as a list of rows. -/
def transposeM (m : List (List Nat)) : List (List Nat) :=
  match m with
  | [] => []
  | r :: _ => (List.range r.length).map (fun j => m.map (fun row => row.getD j 0))

/-- `plt_digit` (cell-12): reshape `x` to a 28-by-28 image, then show its
transpose, clear the ticks and, when a label is given, set the title.  The
reshape is the first statement: when it raises, no plotting effect has
occurred. -/
def plt_digit (x : List Nat) (y : Option Int) :
    Except PyError (List PlotEffect) := do
  let xsq ← reshape2 28 28 x
  pure ([PlotEffect.imshow (transposeM xsq), PlotEffect.xticks, PlotEffect.yticks]
        ++ (match y with | some v => [PlotEffect.title v] | none => []))

/-- matplotlib `plt.subplot(nrows, ncols, index)`: valid only when the grid
dimensions and the index are positive and the index is within the grid. -/
def subplot (nrows ncols index : Nat) : Except PyError Unit :=
  if 1 ≤ nrows ∧ 1 ≤ ncols ∧ 1 ≤ index ∧ index ≤ nrows * ncols then Except.ok ()
  else Except.error (PyError.valueError "num must be an integer with 1 <= num <= nrows * ncols")

/-- A call `plt_digit()` with no argument: the Python runtime raises a
`TypeError` for the missing required positional argument `x` before the
function body runs. -/
def plt_digit_noargs : Except PyError (List PlotEffect) :=
  Except.error (PyError.typeError "plt_digit missing 1 required positional argument: x")

/-- The digit-plotting cell (cell-14): for `i in range(2)`, `j in range(4)`,
call `plt.subplot(i, j, i*4+j)` and then `plt_digit()`. -/
def cell14 : Except PyError Unit :=
  (List.range 2).forM (fun i =>
    (List.range 4).forM (fun j => do
      subplot i j (i * 4 + j)
      _ ← plt_digit_noargs
      pure ()))

/-- `remove_list` (cell-18): the labels of the ambiguous letter classes
i/I, l/L and o/O. -/
def remove_list : List Int := [9, 12, 15]

/-- Modelled from the spec: the filtering asked for by cell-18 (left TODO in
the notebook) — build `X_rem`/`y_rem` from `X`/`y` with the samples `i`
whose label `y[i]` lies in `remove_list` removed, all other samples kept in
order with features and labels unchanged. -/
def remove_ambiguous (X : List (List Nat)) (y : List Int) :
    List (List Nat) × List Int :=
  let kept := (X.zip y).filter (fun p => !(remove_list.contains p.2))
  (kept.map Prod.fst, kept.map Prod.snd)

/-- Number of subsampled training digits (cell-20). -/
def ntr_dig : Nat := 5000
/-- Number of subsampled training letters (cell-20). -/
def ntr_let : Nat := 1000
/-- Number of subsampled test digits (cell-20). -/
def nts_dig : Nat := 5000
/-- Number of subsampled test letters (cell-20). -/
def nts_let : Nat := 1000

/-- Modelled from the spec: the random subsampling asked for by cell-20
(left TODO in the notebook) — the chosen random indices are passed in as
`idx`, and the subsample takes row `i` of `X` and entry `i` of `y` for each
`i` in `idx`. -/
def subsample (X : List (List Nat)) (y : List Int) (idx : List Nat) :
    List (List Nat) × List Int :=
  (idx.filterMap (fun i => X[i]?), idx.filterMap (fun i => y[i]?))

/-- Modelled from the spec: the merge/relabel step asked for by cell-22
(left TODO in the notebook) — stack the digit features on top of the letter
features, keep each digit sample's label, and give every letter sample the
single label 10. -/
def merge_relabel (Xdig : List (List Nat)) (ydig : List Int)
    (Xlet : List (List Nat)) : List (List Nat) × List Int :=
  (Xdig ++ Xlet, ydig ++ List.replicate Xlet.length 10)

/-- Modelled from the spec: the `test_fold` vector asked for by cell-39
(left TODO in the notebook) — `-1` for each of the `ntr` training samples
followed by `0` for each of the `nts` test samples, the training rows
stacked before the test rows as in cell-37. -/
def test_fold (ntr nts : Nat) : List Int :=
  List.replicate ntr (-1) ++ List.replicate nts 0

/-- `sklearn.model_selection.PredefinedSplit(test_fold)`: the test set of
fold `k` is the set of indices `i` with `test_fold[i] = k`; entries equal to
`-1` are never held out. -/
def split_test_indices (tf : List Int) (k : Int) : List Nat :=
  (List.range tf.length).filter (fun i => tf.getD i (-1) == k)

/-- `sklearn.model_selection.PredefinedSplit(test_fold)`: the number of
folds is the number of distinct entries of `test_fold` other than `-1`. -/
def split_n_folds (tf : List Int) : Nat :=
  ((tf.filter (fun v => !(v == -1))).dedup).length

/-- A step of the notebook script, with the variables it reads and the
variables it assigns. -/
structure Step where
  name : String
  reads : List String
  writes : List String
  deriving Repr, DecidableEq

/-- The notebook as a data-flow pipeline, one entry per stage in cell order:
load (cells 8 and 10), filter/subsample (cells 18 and 20), merge/relabel
(cell 22), rescale (cell 24), fit (cells 26 and 28), evaluate (cells 30 to
34), tune (cells 37 to 45).  The reads and writes of the TODO cells are the
variables named in the notebook's instructions and comment stubs. -/
def pipeline : List Step := [
  ⟨"load", [],
   ["Xtr_dig", "ytr_dig", "Xts_dig", "yts_dig",
    "Xtr_let", "ytr_let", "Xts_let", "yts_let"]⟩,
  ⟨"filter_subsample",
   ["Xtr_let", "ytr_let", "Xts_let", "yts_let",
    "Xtr_dig", "ytr_dig", "Xts_dig", "yts_dig"],
   ["Xtr_let_rem", "ytr_let_rem", "Xts_let_rem", "yts_let_rem",
    "Xtr1_dig", "ytr1_dig", "Xts1_dig", "yts1_dig",
    "Xtr1_let", "ytr1_let", "Xts1_let", "yts1_let"]⟩,
  ⟨"merge_relabel",
   ["Xtr1_dig", "ytr1_dig", "Xtr1_let",
    "Xts1_dig", "yts1_dig", "Xts1_let"],
   ["Xtr", "ytr", "Xts", "yts"]⟩,
  ⟨"rescale", ["Xtr", "Xts"], ["Xtr1", "Xts1"]⟩,
  ⟨"fit", ["Xtr1", "ytr"], ["svc"]⟩,
  ⟨"evaluate", ["svc", "Xts1", "yts"], ["yhat", "acc", "C_norm"]⟩,
  ⟨"tune", ["Xtr1", "Xts1", "ytr", "yts"],
   ["X", "y", "test_fold", "ps", "clf"]⟩]

/-- The variables assigned by the steps before step `i`. -/
def writesBefore (steps : List Step) (i : Nat) : List String :=
  ((steps.take i).map Step.writes).flatten

/-- A pipeline is linear when every step reads only variables assigned by
earlier steps and assigns only variables no earlier step assigned (so no
step is revisited). -/
def linearCheck (steps : List Step) : Bool :=
  (List.range steps.length).all (fun i =>
    let before := writesBefore steps i
    let st := steps.getD i ⟨"", [], []⟩
    st.reads.all (fun v => before.contains v) &&
    st.writes.all (fun v => !(before.contains v)))

/-! ## Theorems -/

/-- C1: for every MATLAB dataset file whose contents parse (the file yields a
`MatFile` and each partition's stored label column has one entry per feature
row, as in the fixed layout), `load_emnist` returns `[Xtr, Xts, ytr, yts]`
where `ytr` is a one-dimensional integer vector of length the number of rows
of `Xtr`, `yts` one of length the number of rows of `Xts`, `Xtr` is the
file's first partition and `Xts` its second. -/
theorem load_emnist_shapes (fs : String → Except PyError MatFile)
    (p : String) (mat : MatFile) (hfs : fs p = Except.ok mat)
    (h0 : mat.part0.labels.length = mat.part0.images.length)
    (h1 : mat.part1.labels.length = mat.part1.images.length) :
    ∃ r : LoadResult, load_emnist fs p = Except.ok r ∧
      r.Xtr = mat.part0.images ∧ r.Xts = mat.part1.images ∧
      r.ytr.length = r.Xtr.length ∧ r.yts.length = r.Xts.length := by
  refine ⟨⟨mat.part0.images, mat.part1.images, mat.part0.labels, mat.part1.labels⟩, ?_, rfl, rfl, h0, h1⟩
  simp [load_emnist, hfs, reshape1, h0, h1, Except.bind, Bind.bind, pure, Except.pure]

/-- A concrete well-formed file on which C1's theorem evaluates. -/
def fsW : String → Except PyError MatFile :=
  fun _ => Except.ok ⟨⟨[[1, 2]], [5]⟩, ⟨[[3, 4], [5, 6]], [7, 8]⟩⟩

theorem load_emnist_shapes_witness :
    ∃ r : LoadResult, load_emnist fsW "matlab/emnist-digits.mat" = Except.ok r ∧
      r.Xtr = [[1, 2]] ∧ r.Xts = [[3, 4], [5, 6]] ∧
      r.ytr.length = r.Xtr.length ∧ r.yts.length = r.Xts.length :=
  load_emnist_shapes fsW "matlab/emnist-digits.mat"
    ⟨⟨[[1, 2]], [5]⟩, ⟨[[3, 4], [5, 6]], [7, 8]⟩⟩ rfl (by decide) (by decide)

/-- C2: `load_emnist` has no handler: when the underlying `loadmat` call
fails, the library's exception propagates unchanged to the caller and no
result is produced. -/
theorem load_emnist_propagates (fs : String → Except PyError MatFile)
    (p : String) (e : PyError) (h : fs p = Except.error e) :
    load_emnist fs p = Except.error e := by
  simp [load_emnist, h, Except.bind, Bind.bind]

theorem load_emnist_propagates_witness :
    load_emnist (fun _ => Except.error (PyError.ioError "No such file"))
      "missing.mat" = Except.error (PyError.ioError "No such file") :=
  load_emnist_propagates (fun _ => Except.error (PyError.ioError "No such file"))
    "missing.mat" (PyError.ioError "No such file") rfl

/-- C7: the notebook's steps form a linear data-flow pipeline in the fixed
order load, filter/subsample, merge/relabel, rescale, fit, evaluate, tune:
each step reads only variables assigned by earlier steps, and no step's
variables are assigned again later. -/
theorem pipeline_linear :
    linearCheck pipeline = true ∧
    pipeline.map Step.name =
      ["load", "filter_subsample", "merge_relabel", "rescale",
       "fit", "evaluate", "tune"] := by
  constructor
  · decide
  · rfl

/-- C10: the digit-plotting cell raises on every execution: its first
iteration calls `plt.subplot(0, 0, 0)`, outside subplot's valid domain, and
its `plt_digit()` call lacks the required argument, so the cell never
completes normally. -/
theorem cell14_raises :
    cell14 = Except.error
      (PyError.valueError "num must be an integer with 1 <= num <= nrows * ncols") ∧
    subplot 0 0 0 = Except.error
      (PyError.valueError "num must be an integer with 1 <= num <= nrows * ncols") ∧
    plt_digit_noargs = Except.error
      (PyError.typeError "plt_digit missing 1 required positional argument: x") := by
  exact ⟨rfl, rfl, rfl⟩

/-- C9: `plt_digit` is defined exactly on inputs with 784 elements: the
28-by-28 reshape succeeds for every such input, and every other size raises
the reshape error before any plotting effect occurs. -/
theorem plt_digit_domain (x : List Nat) (y : Option Int) :
    (x.length = 784 → ∃ eff, plt_digit x y = Except.ok eff) ∧
    (x.length ≠ 784 →
      plt_digit x y = Except.error (PyError.valueError "cannot reshape array")) := by
  constructor
  · intro h
    refine ⟨[PlotEffect.imshow (transposeM ((List.range 28).map
        (fun i => (List.range 28).map (fun j => x.getD (i * 28 + j) 0)))),
        PlotEffect.xticks, PlotEffect.yticks] ++
        (match y with | some v => [PlotEffect.title v] | none => []), ?_⟩
    simp [plt_digit, reshape2, h, Except.bind, Bind.bind, pure, Except.pure]
  · intro h
    simp [plt_digit, reshape2, h, Except.bind, Bind.bind]

theorem plt_digit_domain_witness :
    (∃ eff, plt_digit (List.replicate 784 0) none = Except.ok eff) ∧
    plt_digit [0, 1] (some 3) = Except.error (PyError.valueError "cannot reshape array") :=
  ⟨(plt_digit_domain (List.replicate 784 0) none).1 (by simp only [List.length_replicate]),
   (plt_digit_domain [0, 1] (some 3)).2 (by decide)⟩

/-- `load_emnist` depends only on the contents the file system gives for the
requested path. -/
theorem load_emnist_congr (fs₁ fs₂ : String → Except PyError MatFile)
    (p : String) (h : fs₁ p = fs₂ p) : load_emnist fs₁ p = load_emnist fs₂ p := by
  simp [load_emnist, h]

/-- Unfolding `load_emnist_run` on a successful call. -/
theorem load_emnist_run_ok (w : World) (p : String) (r : LoadResult)
    (h : load_emnist w.fs p = Except.ok r) :
    load_emnist_run w p =
      (Except.ok r,
       { w with stdout := w.stdout ++ [statusLine r.Xtr.length r.Xts.length] }) := by
  unfold load_emnist_run
  rw [h]

/-- Unfolding `load_emnist_run` on a failing call. -/
theorem load_emnist_run_err (w : World) (p : String) (e : PyError)
    (h : load_emnist w.fs p = Except.error e) :
    load_emnist_run w p = (Except.error e, w) := by
  unfold load_emnist_run
  rw [h]

/-- C8: `load_emnist` has no side effect on persistent or program state: the
file system is returned unchanged, the result depends only on the contents
at the requested path (so two calls on identical file contents return
identical arrays), on success the only other observable effect is the one
printed status line, and on an exception the world is untouched. -/
theorem load_emnist_frame (w : World) (p : String) :
    (load_emnist_run w p).2.fs = w.fs ∧
    (∀ w₂ : World, w₂.fs p = w.fs p →
       (load_emnist_run w₂ p).1 = (load_emnist_run w p).1) ∧
    (∀ r : LoadResult, (load_emnist_run w p).1 = Except.ok r →
       (load_emnist_run w p).2.stdout =
         w.stdout ++ [statusLine r.Xtr.length r.Xts.length]) ∧
    (∀ e : PyError, (load_emnist_run w p).1 = Except.error e →
       (load_emnist_run w p).2 = w) := by
  cases h : load_emnist w.fs p with
  | ok val =>
    rw [load_emnist_run_ok w p val h]
    refine ⟨rfl, ?_, ?_, ?_⟩
    · intro w₂ h₂
      have h₃ : load_emnist w₂.fs p = Except.ok val := by
        rw [load_emnist_congr w₂.fs w.fs p h₂, h]
      rw [load_emnist_run_ok w₂ p val h₃]
    · intro r hr
      simp only [Except.ok.injEq] at hr
      simp [hr]
    · intro e he
      cases he
  | error a =>
    rw [load_emnist_run_err w p a h]
    refine ⟨rfl, ?_, ?_, ?_⟩
    · intro w₂ h₂
      have h₃ : load_emnist w₂.fs p = Except.error a := by
        rw [load_emnist_congr w₂.fs w.fs p h₂, h]
      rw [load_emnist_run_err w₂ p a h₃]
    · intro r hr
      cases hr
    · intro e he
      rfl

theorem load_emnist_frame_witness :
    (load_emnist_run ⟨fsW, []⟩ "f").2.fs = fsW ∧
    (load_emnist_run ⟨fsW, ["earlier line"]⟩ "f").1 =
      (load_emnist_run ⟨fsW, []⟩ "f").1 ∧
    (load_emnist_run ⟨fsW, []⟩ "f").2.stdout = [statusLine 1 2] := by
  obtain ⟨h1, h2, h3, _⟩ := load_emnist_frame ⟨fsW, []⟩ "f"
  refine ⟨h1, h2 ⟨fsW, ["earlier line"]⟩ rfl, ?_⟩
  have hres : (load_emnist_run ⟨fsW, []⟩ "f").1 =
      Except.ok ⟨[[1, 2]], [[3, 4], [5, 6]], [5], [7, 8]⟩ := rfl
  simpa using h3 ⟨[[1, 2]], [[3, 4], [5, 6]], [5], [7, 8]⟩ hres

/-- C3: after the merge/relabel step the combined label vector takes values
in the eleven classes 0..10: every sample from the digit data (whose labels
are the digits 0..9) keeps its digit label, and every sample from the letter
data gets the single label 10. -/
theorem merge_relabel_classes (Xdig : List (List Nat)) (ydig : List Int)
    (Xlet : List (List Nat)) (hdig : ∀ l ∈ ydig, 0 ≤ l ∧ l ≤ 9) :
    (∀ i, i < ydig.length →
       ((merge_relabel Xdig ydig Xlet).2).getD i 0 = ydig.getD i 0) ∧
    (∀ i, ydig.length ≤ i → i < ((merge_relabel Xdig ydig Xlet).2).length →
       ((merge_relabel Xdig ydig Xlet).2).getD i 0 = 10) ∧
    (∀ l ∈ (merge_relabel Xdig ydig Xlet).2, 0 ≤ l ∧ l ≤ 10) := by
  refine ⟨?_, ?_, ?_⟩
  · intro i hi
    exact List.getD_append ydig (List.replicate Xlet.length 10) 0 i hi
  · intro i hlo hhi
    show (ydig ++ List.replicate Xlet.length (10 : Int)).getD i 0 = 10
    rw [List.getD_append_right ydig (List.replicate Xlet.length (10 : Int)) 0 i hlo]
    have hlen : i - ydig.length < Xlet.length := by
      simp only [merge_relabel, List.length_append, List.length_replicate] at hhi
      omega
    simp [List.getD, List.getElem?_replicate, hlen]
  · intro l hl
    simp only [merge_relabel, List.mem_append] at hl
    rcases hl with hd | hr
    · have := hdig l hd
      omega
    · have := List.eq_of_mem_replicate hr
      omega

theorem merge_relabel_classes_witness :
    (∀ i, i < ([0, 9] : List Int).length →
       ((merge_relabel [[3], [4]] [0, 9] [[1], [2]]).2).getD i 0 =
         ([0, 9] : List Int).getD i 0) ∧
    (∀ i, ([0, 9] : List Int).length ≤ i →
       i < ((merge_relabel [[3], [4]] [0, 9] [[1], [2]]).2).length →
       ((merge_relabel [[3], [4]] [0, 9] [[1], [2]]).2).getD i 0 = 10) ∧
    (∀ l ∈ (merge_relabel [[3], [4]] [0, 9] [[1], [2]]).2, 0 ≤ l ∧ l ≤ 10) :=
  merge_relabel_classes [[3], [4]] [0, 9] [[1], [2]] (by decide)

/-- Counting in a filtered list: an element passing the test keeps its
count, one failing it is gone. -/
theorem count_filter_eq {α : Type} [BEq α] [LawfulBEq α] (q : α → Bool)
    (l : List α) (a : α) :
    (l.filter q).count a = if q a then l.count a else 0 := by
  induction l with
  | nil => simp
  | cons b t ih =>
    by_cases hqb : q b
    · rw [List.filter_cons_of_pos hqb]
      by_cases hab : b = a
      · subst hab
        simp [List.count_cons, ih, hqb]
      · simp [List.count_cons, ih, hab]
    · rw [List.filter_cons_of_neg (by simpa using hqb)]
      by_cases hab : b = a
      · subst hab
        simp [List.count_cons, ih, hqb]
      · simp [List.count_cons, ih, hab]

/-- Zipping the projections of a list of pairs gives the list back. -/
theorem zip_fst_snd {α β : Type} (l : List (α × β)) :
    (l.map Prod.fst).zip (l.map Prod.snd) = l := by
  induction l with
  | nil => rfl
  | cons p t ih => simp [List.zip_cons_cons, ih]

/-- C4: the filtering step removes from the paired letter data exactly the
samples whose label lies in `remove_list` = {9, 12, 15}: the kept pairs form
a sublist (order, features and labels unchanged), every pair with a label in
the set is excluded, and every other pair is retained with its full
multiplicity. -/
theorem remove_ambiguous_spec (X : List (List Nat)) (y : List Int) :
    ((remove_ambiguous X y).1.zip (remove_ambiguous X y).2).Sublist (X.zip y) ∧
    (∀ p : List Nat × Int,
       ((remove_ambiguous X y).1.zip (remove_ambiguous X y).2).count p =
         if p.2 ∈ remove_list then 0 else (X.zip y).count p) := by
  have hzip : (remove_ambiguous X y).1.zip (remove_ambiguous X y).2 =
      (X.zip y).filter (fun p => !(remove_list.contains p.2)) := by
    simp only [remove_ambiguous]
    exact zip_fst_snd _
  rw [hzip]
  refine ⟨List.filter_sublist _, ?_⟩
  intro p
  rw [count_filter_eq]
  by_cases hp : p.2 ∈ remove_list
  · simp [hp]
  · simp [hp]

/-- Indexing with only valid indices keeps every index: one row per chosen
index. -/
theorem filterMap_get_length {α : Type} (X : List α) (idx : List Nat)
    (h : ∀ i ∈ idx, i < X.length) :
    (idx.filterMap (fun i => X[i]?)).length = idx.length := by
  induction idx with
  | nil => rfl
  | cons a t ih =>
    have ha : a < X.length := h a (List.mem_cons_self a t)
    rw [List.filterMap_cons, List.getElem?_eq_getElem ha]
    simp only [List.length_cons]
    rw [ih (fun i hi => h i (List.mem_cons_of_mem a hi))]

/-- Every row produced by indexing is a row of the indexed list. -/
theorem filterMap_get_mem {α : Type} (X : List α) (idx : List Nat) (s : α)
    (hs : s ∈ idx.filterMap (fun i => X[i]?)) : s ∈ X := by
  rw [List.mem_filterMap] at hs
  obtain ⟨i, _, hi⟩ := hs
  exact List.getElem?_mem hi

/-- C5: the subsampling step draws the fixed per-source counts of cell-20 —
5000 training digits, 1000 training letters, 5000 test digits, 1000 test
letters — each drawn from the corresponding full array, so the merged
training and test sets each hold 6000 samples. -/
theorem subsample_counts
    (Xtrd : List (List Nat)) (ytrd : List Int) (itrd : List Nat)
    (Xtrl : List (List Nat)) (ytrl : List Int) (itrl : List Nat)
    (Xtsd : List (List Nat)) (ytsd : List Int) (itsd : List Nat)
    (Xtsl : List (List Nat)) (ytsl : List Int) (itsl : List Nat)
    (h1 : itrd.length = ntr_dig) (h2 : ∀ i ∈ itrd, i < Xtrd.length)
    (h3 : itrl.length = ntr_let) (h4 : ∀ i ∈ itrl, i < Xtrl.length)
    (h5 : itsd.length = nts_dig) (h6 : ∀ i ∈ itsd, i < Xtsd.length)
    (h7 : itsl.length = nts_let) (h8 : ∀ i ∈ itsl, i < Xtsl.length) :
    (subsample Xtrd ytrd itrd).1.length = 5000 ∧
    (subsample Xtrl ytrl itrl).1.length = 1000 ∧
    (subsample Xtsd ytsd itsd).1.length = 5000 ∧
    (subsample Xtsl ytsl itsl).1.length = 1000 ∧
    (∀ s ∈ (subsample Xtrd ytrd itrd).1, s ∈ Xtrd) ∧
    (∀ s ∈ (subsample Xtrl ytrl itrl).1, s ∈ Xtrl) ∧
    (∀ s ∈ (subsample Xtsd ytsd itsd).1, s ∈ Xtsd) ∧
    (∀ s ∈ (subsample Xtsl ytsl itsl).1, s ∈ Xtsl) ∧
    (merge_relabel (subsample Xtrd ytrd itrd).1 (subsample Xtrd ytrd itrd).2
       (subsample Xtrl ytrl itrl).1).1.length = 6000 ∧
    (merge_relabel (subsample Xtsd ytsd itsd).1 (subsample Xtsd ytsd itsd).2
       (subsample Xtsl ytsl itsl).1).1.length = 6000 := by
  have e1 : (subsample Xtrd ytrd itrd).1.length = 5000 := by
    rw [subsample, filterMap_get_length Xtrd itrd h2, h1]; rfl
  have e2 : (subsample Xtrl ytrl itrl).1.length = 1000 := by
    rw [subsample, filterMap_get_length Xtrl itrl h4, h3]; rfl
  have e3 : (subsample Xtsd ytsd itsd).1.length = 5000 := by
    rw [subsample, filterMap_get_length Xtsd itsd h6, h5]; rfl
  have e4 : (subsample Xtsl ytsl itsl).1.length = 1000 := by
    rw [subsample, filterMap_get_length Xtsl itsl h8, h7]; rfl
  refine ⟨e1, e2, e3, e4,
    fun s hs => filterMap_get_mem Xtrd itrd s hs,
    fun s hs => filterMap_get_mem Xtrl itrl s hs,
    fun s hs => filterMap_get_mem Xtsd itsd s hs,
    fun s hs => filterMap_get_mem Xtsl itsl s hs, ?_, ?_⟩
  · show ((subsample Xtrd ytrd itrd).1 ++ (subsample Xtrl ytrl itrl).1).length = 6000
    rw [List.length_append, e1, e2]
  · show ((subsample Xtsd ytsd itsd).1 ++ (subsample Xtsl ytsl itsl).1).length = 6000
    rw [List.length_append, e3, e4]

theorem subsample_counts_witness :
    (subsample [[7]] [7] (List.replicate 5000 0)).1.length = 5000 ∧
    (subsample [[8]] [8] (List.replicate 1000 0)).1.length = 1000 ∧
    (subsample [[7]] [7] (List.replicate 5000 0)).1.length = 5000 ∧
    (subsample [[8]] [8] (List.replicate 1000 0)).1.length = 1000 ∧
    (∀ s ∈ (subsample [[7]] [7] (List.replicate 5000 0)).1, s ∈ [[7]]) ∧
    (∀ s ∈ (subsample [[8]] [8] (List.replicate 1000 0)).1, s ∈ [[8]]) ∧
    (∀ s ∈ (subsample [[7]] [7] (List.replicate 5000 0)).1, s ∈ [[7]]) ∧
    (∀ s ∈ (subsample [[8]] [8] (List.replicate 1000 0)).1, s ∈ [[8]]) ∧
    (merge_relabel (subsample [[7]] [7] (List.replicate 5000 0)).1
       (subsample [[7]] [7] (List.replicate 5000 0)).2
       (subsample [[8]] [8] (List.replicate 1000 0)).1).1.length = 6000 ∧
    (merge_relabel (subsample [[7]] [7] (List.replicate 5000 0)).1
       (subsample [[7]] [7] (List.replicate 5000 0)).2
       (subsample [[8]] [8] (List.replicate 1000 0)).1).1.length = 6000 := by
  have hv : ∀ i ∈ List.replicate 5000 (0 : Nat), i < ([[7]] : List (List Nat)).length := by
    intro i hi
    simp [List.eq_of_mem_replicate hi]
  have hw : ∀ i ∈ List.replicate 1000 (0 : Nat), i < ([[8]] : List (List Nat)).length := by
    intro i hi
    simp [List.eq_of_mem_replicate hi]
  exact subsample_counts [[7]] [7] (List.replicate 5000 0) [[8]] [8] (List.replicate 1000 0)
    [[7]] [7] (List.replicate 5000 0) [[8]] [8] (List.replicate 1000 0)
    (by rw [List.length_replicate]; rfl) hv (by rw [List.length_replicate]; rfl) hw
    (by rw [List.length_replicate]; rfl) hv (by rw [List.length_replicate]; rfl) hw

/-- The entries of the `test_fold` vector, by position. -/
theorem test_fold_getElem? (ntr nts i : Nat) :
    (test_fold ntr nts)[i]? =
      if i < ntr then some (-1) else if i < ntr + nts then some 0 else none := by
  unfold test_fold
  rw [List.getElem?_append]
  rw [List.length_replicate]
  by_cases h1 : i < ntr
  · simp [h1, List.getElem?_replicate]
  · by_cases h2 : i < ntr + nts
    · have hlt : i - ntr < nts := by omega
      simp [h1, h2, List.getElem?_replicate, hlt]
    · have hge : ¬ (i - ntr < nts) := by omega
      simp [h1, h2, List.getElem?_replicate, hge]

/-- The length of the `test_fold` vector. -/
theorem test_fold_length (ntr nts : Nat) :
    (test_fold ntr nts).length = ntr + nts := by
  simp [test_fold]

/-- Training markers never pass the fold filter. -/
theorem filter_neg_replicate (n : Nat) :
    (List.replicate n (-1 : Int)).filter (fun v => !(v == -1)) = [] := by
  induction n with
  | zero => rfl
  | succ m ih => rw [List.replicate_succ, List.filter_cons_of_neg (by decide)]; exact ih

/-- Test markers all pass the fold filter. -/
theorem filter_zero_replicate (n : Nat) :
    (List.replicate n (0 : Int)).filter (fun v => !(v == -1)) = List.replicate n 0 := by
  induction n with
  | zero => rfl
  | succ m ih =>
    rw [List.replicate_succ, List.filter_cons_of_pos (by decide), ih]

/-- C6: the `test_fold` vector assigns `-1` to every training sample and `0`
to every test sample, so the predefined split has exactly one fold, whose
held-out set is precisely the original test rows. -/
theorem test_fold_spec (ntr nts : Nat) (hnts : 0 < nts) :
    (∀ i, i < ntr → (test_fold ntr nts).getD i 0 = -1) ∧
    (∀ i, ntr ≤ i → i < ntr + nts → (test_fold ntr nts).getD i (-1) = 0) ∧
    split_n_folds (test_fold ntr nts) = 1 ∧
    (∀ i, i ∈ split_test_indices (test_fold ntr nts) 0 ↔ ntr ≤ i ∧ i < ntr + nts) := by
  refine ⟨?_, ?_, ?_, ?_⟩
  · intro i hi
    rw [List.getD_eq_getElem?_getD, test_fold_getElem?]
    simp [hi]
  · intro i hlo hhi
    rw [List.getD_eq_getElem?_getD, test_fold_getElem?]
    have h1 : ¬ i < ntr := by omega
    simp [h1, hhi]
  · unfold split_n_folds test_fold
    rw [List.filter_append, filter_neg_replicate, filter_zero_replicate,
      List.nil_append, List.replicate_dedup (Nat.pos_iff_ne_zero.mp hnts),
      List.length_singleton]
  · intro i
    unfold split_test_indices
    rw [List.mem_filter, List.mem_range, test_fold_length]
    constructor
    · rintro ⟨hir, hv⟩
      rw [List.getD_eq_getElem?_getD, test_fold_getElem?] at hv
      by_cases h1 : i < ntr
      · simp [h1] at hv
      · exact ⟨by omega, hir⟩
    · rintro ⟨hlo, hhi⟩
      refine ⟨hhi, ?_⟩
      rw [List.getD_eq_getElem?_getD, test_fold_getElem?]
      have h1 : ¬ i < ntr := by omega
      simp [h1, hhi]

theorem test_fold_spec_witness :
    (∀ i, i < 2 → (test_fold 2 3).getD i 0 = -1) ∧
    (∀ i, 2 ≤ i → i < 2 + 3 → (test_fold 2 3).getD i (-1) = 0) ∧
    split_n_folds (test_fold 2 3) = 1 ∧
    (∀ i, i ∈ split_test_indices (test_fold 2 3) 0 ↔ 2 ≤ i ∧ i < 2 + 3) :=
  test_fold_spec 2 3 (by decide)

end EmnistLab
